import Mathlib

/-!
Verification of the DevConnector REST backend core: the auth middleware,
token issuance in `routes/api/auth.js`, and the sub-document mutation logic
of `routes/api/profile.js` and the posts router, shallowly embedded in Lean.
Persisted documents are modelled as lists of structures; each Express handler
becomes a pure function from the relevant store fragment and request
parameters to a response together with the persisted state.
JavaScript-specific behaviours the handlers rely on (`Array.prototype.indexOf`
returning -1, `splice` coercing its start argument, `String.prototype.indexOf`,
string truthiness) are embedded explicitly.
-/

/-! ## JavaScript primitives used by the handlers -/

/-- `Array.prototype.indexOf` over a list of strings: the index of the first
occurrence, or -1 when absent. -/
def jsIndexOf : List String → String → Int
  | [], _ => -1
  | a :: as, x =>
    if a = x then 0
    else
      let r := jsIndexOf as x
      if r = -1 then -1 else r + 1

/-- `ToIntegerOrInfinity` applied to `splice`'s start argument, then clamped
as `splice` does: a negative start counts from the end (floored at 0), a
start past the end is clamped to the length. -/
def jsSpliceStart (len : Nat) (start : Int) : Nat :=
  if start < 0 then (len + start).toNat else min start.toNat len

/-- `arr.splice(start, 1)`: removes the single element at the clamped start
position (none when the position is past the end). -/
def jsSpliceRemoveOne (l : List α) (start : Int) : List α :=
  let s := jsSpliceStart l.length start
  l.take s ++ l.drop (s + 1)

/-- The pattern matches the candidate list at its head, character by
character. -/
def charsMatch : List Char → List Char → Bool
  | [], _ => true
  | _ :: _, [] => false
  | a :: as, b :: bs => a = b && charsMatch as bs

def jsStrIndexOfGo (pat : List Char) : List Char → Nat → Int
  | [], i => if charsMatch pat [] then (i : Int) else -1
  | c :: rest, i =>
    if charsMatch pat (c :: rest) then (i : Int) else jsStrIndexOfGo pat rest (i + 1)

/-- `String.prototype.indexOf`: the first position at which `pat` occurs
inside `s`, or -1 when it does not occur. -/
def jsStrIndexOf (s pat : String) : Int :=
  jsStrIndexOfGo pat.data s.data 0

/-- JavaScript string truthiness: `undefined` and the empty string are falsy;
every other string is truthy.  `none` embeds a field absent from the request
body. -/
def truthy : Option String → Bool
  | none => false
  | some s => s ≠ ""

/-- `splice` coerces a non-numeric start argument with `ToNumber`: a
one-element array yields its element, the empty array stringifies to the
empty string and yields 0, and an array of two or more elements stringifies
to a comma-joined form, giving NaN, which `ToIntegerOrInfinity` maps to 0. -/
def jsArrayToSpliceStart : List Int → Int
  | [i] => i
  | _ => 0

/-! ## Data model (`models/Post.js` and the documents the routes read/write) -/

structure User where
  id : String
  name : String
  email : String
  /-- The stored bcrypt hash. -/
  password : String
  avatar : String
  deriving DecidableEq, Repr

structure Like where
  user : String
  deriving DecidableEq, Repr

structure Comment where
  id : String
  user : String
  text : String
  name : String
  avatar : String
  deriving DecidableEq, Repr

structure Post where
  id : String
  user : String
  text : String
  likes : List Like
  comments : List Comment
  deriving DecidableEq, Repr

structure ExperienceEntry where
  id : String
  title : String
  company : String
  deriving DecidableEq, Repr

structure EducationEntry where
  id : String
  school : String
  degree : String
  deriving DecidableEq, Repr

structure StoredProfile where
  user : String
  experience : List ExperienceEntry
  education : List EducationEntry
  deriving DecidableEq, Repr

structure Store where
  users : List User
  profiles : List StoredProfile
  posts : List Post
  deriving DecidableEq, Repr

/-! ## Token service (`jwt.sign` in `routes/api/auth.js`, `jwt.verify` in the
auth middleware) -/

/-- Modelled from the spec: the jsonwebtoken library is an external
collaborator whose source is not part of this repository; per §4.1 a signed
token embeds the identity and an expiration, and verification checks the
signature (same secret) and the expiration against the clock, succeeding
strictly before the expiration instant. -/
structure Jwt where
  payloadUserId : String
  secret : String
  exp : Nat
  deriving DecidableEq, Repr

/-- The `expiresIn: 360000` (seconds) option of the `jwt.sign` call in
`routes/api/auth.js`. -/
def expiresInSeconds : Nat := 360000

/-- `jwt.sign(payload, jwtSecret, expiresIn 360000)` at clock time `now`
(seconds). -/
def issueToken (userId secret : String) (now : Nat) : Jwt :=
  { payloadUserId := userId, secret := secret, exp := now + expiresInSeconds }

/-- `jwt.verify(token, jwtSecret)` at clock time `now` (seconds): the decoded
user identity, or `none` when the signature does not match or the token is
expired. -/
def verifyToken (tok : Jwt) (secret : String) (now : Nat) : Option String :=
  if tok.secret = secret ∧ now < tok.exp then some tok.payloadUserId else none

/-! ## Auth middleware (`middleware/auth.js`) -/

inductive AuthOutcome where
  /-- 401 with the given message. -/
  | unauthorized (msg : String)
  /-- `next()` is reached with `req.user` bound to the decoded identity. -/
  | authed (userId : String)
  deriving DecidableEq, Repr

/-- The auth middleware: reads the `x-auth-token` header; `if (!token)`
(header absent or the empty string, both falsy) responds 401
`No token, authorisation denied` before `jwt.verify` is ever reached;
otherwise calls `jwt.verify` — abstracted as the `verify` argument and
counted by the middle component of the result — and either binds the decoded
user or responds 401 `Token is not valid`.  The middleware module imports
only jsonwebtoken and config, so the store passes through unchanged. -/
def authGuard (verify : String → Option String) (header : Option String)
    (store : Store) : AuthOutcome × Nat × Store :=
  let token := match header with
    | none => ""
    | some t => t
  if token = "" then
    ((.unauthorized "No token, authorisation denied"), 0, store)
  else
    match verify token with
    | some uid => ((.authed uid), 1, store)
    | none => ((.unauthorized "Token is not valid"), 1, store)

/-! ## Credential check (POST `api/auth`) -/

inductive LoginResponse where
  /-- `res.status(status).json` with a batch of error messages. -/
  | err (status : Nat) (msgs : List String)
  /-- 200 with the signed token. -/
  | token (t : Jwt)
  deriving DecidableEq, Repr

/-- POST `api/auth` after the shape validators: look up the user by email;
absent → 400 `Invalid credentials`; present → compare the plaintext password
against the stored hash with `bcrypt.compare` (an external collaborator,
abstracted as `bcryptCompare`); mismatch → the same 400 `Invalid
credentials`; match → sign and return a token carrying the user id. -/
def login (users : List User) (bcryptCompare : String → String → Bool)
    (email password secret : String) (now : Nat) : LoginResponse :=
  match users.find? (fun u => u.email == email) with
  | none => .err 400 ["Invalid credentials"]
  | some user =>
    if !(bcryptCompare password user.password) then
      .err 400 ["Invalid credentials"]
    else
      .token (issueToken user.id secret now)

/-! ## Profile upsert (POST `api/profile`) -/

/-- The request body fields the handler destructures; `none` embeds a field
absent from the JSON body. -/
structure ProfileBody where
  company : Option String := none
  website : Option String := none
  location : Option String := none
  bio : Option String := none
  status : Option String := none
  githubusername : Option String := none
  skills : Option String := none
  youtube : Option String := none
  facebook : Option String := none
  twitter : Option String := none
  instagram : Option String := none
  linkedin : Option String := none
  deriving DecidableEq, Repr

/-- `if (field) profileFields.field = field`: the field is assigned only when
truthy. -/
def keepIf (x : Option String) : Option String := if truthy x then x else none

structure SocialFields where
  youtube : Option String
  twitter : Option String
  facebook : Option String
  linkedin : Option String
  instagram : Option String
  deriving DecidableEq, Repr

structure ProfileFields where
  user : String
  company : Option String
  website : Option String
  location : Option String
  bio : Option String
  status : Option String
  githubusername : Option String
  skills : Option (List String)
  social : SocialFields
  deriving DecidableEq, Repr

/-- POST `api/profile`: the `profileFields` object built from the request
body — `user` always set from the token id; each scalar assigned only when
the body field is truthy (`if (company) ...`); `skills` split on commas with
each element trimmed; the `social` sub-object assembled the same way. -/
def buildProfileFields (userId : String) (b : ProfileBody) : ProfileFields :=
  { user := userId
    company := keepIf b.company
    website := keepIf b.website
    location := keepIf b.location
    bio := keepIf b.bio
    status := keepIf b.status
    githubusername := keepIf b.githubusername
    skills :=
      match b.skills with
      | none => none
      | some s =>
        if s ≠ "" then some ((s.splitOn ",").map (fun skill => skill.trim))
        else none
    social :=
      { youtube := keepIf b.youtube
        twitter := keepIf b.twitter
        facebook := keepIf b.facebook
        linkedin := keepIf b.linkedin
        instagram := keepIf b.instagram } }

/-! ## Experience/education removal (DELETE `api/profile/experience/:exp_id`
and `api/profile/education/:edu_id`) -/

/-- DELETE `/experience/:exp_id`:
`removeIndex = profile.experience.map(item => item.id).indexOf(exp_id)`
followed by `profile.experience.splice(removeIndex, 1)` and a save. -/
def deleteExperience (exps : List ExperienceEntry) (expId : String) :
    List ExperienceEntry :=
  let removeIndex := jsIndexOf (exps.map (·.id)) expId
  jsSpliceRemoveOne exps removeIndex

/-- DELETE `/education/:edu_id`: the same index computation and `splice` over
the education sub-list. -/
def deleteEducation (edus : List EducationEntry) (eduId : String) :
    List EducationEntry :=
  let removeIndex := jsIndexOf (edus.map (·.id)) eduId
  jsSpliceRemoveOne edus removeIndex

/-! ## Account deletion (DELETE `api/profile`) -/

/-- `findOneAndRemove`: the document store removes the first document
matching the filter, if any. -/
def findOneAndRemove (p : α → Bool) : List α → List α
  | [] => []
  | x :: xs => if p x then xs else x :: findOneAndRemove p xs

/-- DELETE `api/profile`: `Profile.findOneAndRemove` on the authenticated
user id, then `User.findOneAndRemove` on the same id; the posts collection is
untouched (the handler carries a `@todo - remove user's posts` comment). -/
def deleteAccount (store : Store) (userId : String) : Store × String :=
  ({ users := findOneAndRemove (fun u => u.id == userId) store.users
     profiles := findOneAndRemove (fun p => p.user == userId) store.profiles
     posts := store.posts },
   "User deleted")

/-! ## Likes (posts router, PUT `/like/:id` and `/unlike/:id`) -/

inductive LikeOutcome where
  /-- 400, body message `Post already liked`. -/
  | alreadyLiked
  /-- 200, body `post.likes`. -/
  | created
  deriving DecidableEq, Repr

/-- PUT `/like/:id` on a found post: if a like by this user is already in the
list respond 400 and do not save; otherwise `unshift` a new like and save.
Returns the response outcome together with the persisted like list. -/
def likePost (likes : List Like) (userId : String) :
    LikeOutcome × List Like :=
  if 0 < (likes.filter (fun like => like.user == userId)).length then
    (.alreadyLiked, likes)
  else
    (.created, ⟨userId⟩ :: likes)

inductive UnlikeOutcome where
  /-- 400, body message `Post has not yet been liked`. -/
  | notLiked
  /-- 200, body `post.likes`. -/
  | removed
  deriving DecidableEq, Repr

/-- PUT `/unlike/:id` on a found post: if no like by this user is in the list
respond 400 and do not save; otherwise compute
`removeIndex = post.likes.map(like => like.user.toString().indexOf(req.user.id))`
— an array of per-like string-search positions — and call
`post.likes.splice(removeIndex, 1)`, whose start argument is coerced by
`jsArrayToSpliceStart`. -/
def unlikePost (likes : List Like) (userId : String) :
    UnlikeOutcome × List Like :=
  if (likes.filter (fun like => like.user == userId)).length == 0 then
    (.notLiked, likes)
  else
    let removeIndex := likes.map (fun like => jsStrIndexOf like.user userId)
    (.removed, jsSpliceRemoveOne likes (jsArrayToSpliceStart removeIndex))

/-- The like lists a post can reach through the posts router: a post is
created with an empty like list and thereafter mutated only by the like and
unlike handlers (the persisted list is the second component of each). -/
inductive ReachableLikes : List Like → Prop where
  | init : ReachableLikes []
  | like (u : String) {ls : List Like} :
      ReachableLikes ls → ReachableLikes (likePost ls u).2
  | unlike (u : String) {ls : List Like} :
      ReachableLikes ls → ReachableLikes (unlikePost ls u).2

/-! ## Route-level like/unlike (post lookup included) -/

inductive PostRouteResponse where
  /-- 500 `Server Error` from the handler's catch block. -/
  | serverError
  /-- 400 with the given message. -/
  | badRequest (msg : String)
  /-- 200 with the persisted like list. -/
  | okLikes (likes : List Like)
  deriving DecidableEq, Repr

def postRouteStatus : PostRouteResponse → Nat
  | .serverError => 500
  | .badRequest _ => 400
  | .okLikes _ => 200

/-- PUT `/like/:id` at the route level: `Post.findById` yields null for an
absent identifier, the subsequent `post.likes` access throws, and the catch
block responds 500 `Server Error` (these two handlers have no 404 branch and
no `err.kind` ObjectId check, unlike GET `/:id`). -/
def likeRoute (posts : List Post) (postId userId : String) :
    PostRouteResponse :=
  match posts.find? (fun p => p.id == postId) with
  | none => .serverError
  | some post =>
    match likePost post.likes userId with
    | (.alreadyLiked, _) => .badRequest "Post already liked"
    | (.created, ls) => .okLikes ls

/-- PUT `/unlike/:id` at the route level, with the same catch-all behaviour
on an absent post. -/
def unlikeRoute (posts : List Post) (postId userId : String) :
    PostRouteResponse :=
  match posts.find? (fun p => p.id == postId) with
  | none => .serverError
  | some post =>
    match unlikePost post.likes userId with
    | (.notLiked, _) => .badRequest "Post has not yet been liked"
    | (.removed, ls) => .okLikes ls

/-! ## Comment deletion (posts router, DELETE `/comment/:id/:comment_id`) -/

inductive DeleteCommentOutcome where
  /-- 404 `Comment does not exist`. -/
  | notFound
  /-- 401 `User not authorized`. -/
  | forbidden
  /-- 200, body `post.comments`. -/
  | removedOk
  deriving DecidableEq, Repr

/-- DELETE `/comment/:id/:comment_id` on a found post: pull out the comment
by identifier with `find`; absent → 404; authored by another user → 401 with
no mutation; otherwise replace the comment list by the entries whose id
differs and save. -/
def deleteComment (comments : List Comment) (commentId userId : String) :
    DeleteCommentOutcome × List Comment :=
  match comments.find? (fun c => c.id == commentId) with
  | none => (.notFound, comments)
  | some c =>
    if c.user != userId then (.forbidden, comments)
    else (.removedOk, comments.filter (fun d => d.id != commentId))

/-! ## Concrete sample documents (used to instantiate the theorems) -/

def usersC6 : List User := [⟨"id1", "Ann", "a@b.c", "hash", "av"⟩]

def commentsC7 : List Comment := [⟨"c1", "u1", "hi", "Ann", "av"⟩]

/-- A profile-upsert request body whose company field is present but the
empty string (status and skills satisfy the route's validators). -/
def bodyC8cex : ProfileBody :=
  { company := some "", status := some "Developer", skills := some "js,go" }

def bodyC8w : ProfileBody :=
  { company := some "Acme", status := some "Dev", skills := some "js,go" }

def storeC9 : Store :=
  { users := [⟨"u1", "Ann", "a@b.c", "h", "av"⟩]
    profiles := [⟨"u1", [], []⟩, ⟨"u2", [], []⟩]
    posts := [⟨"p1", "u1", "hello", [], []⟩] }

/-! ## Helper lemmas -/

theorem jsSpliceRemoveOne_sublist (l : List α) (start : Int) :
    (jsSpliceRemoveOne l start).Sublist l := by
  unfold jsSpliceRemoveOne
  have h1 : (l.drop (jsSpliceStart l.length start + 1)).Sublist
      (l.drop (jsSpliceStart l.length start)) := by
    rw [← List.drop_drop]
    exact List.drop_sublist 1 _
  have h2 := h1.append_left (l.take (jsSpliceStart l.length start))
  calc (l.take (jsSpliceStart l.length start) ++
          l.drop (jsSpliceStart l.length start + 1)).Sublist
        (l.take (jsSpliceStart l.length start) ++
          l.drop (jsSpliceStart l.length start)) := h2
    _ = l := List.take_append_drop _ _

theorem likePost_preserves_nodup (ls : List Like) (u : String)
    (h : (ls.map Like.user).Nodup) :
    ((likePost ls u).2.map Like.user).Nodup := by
  by_cases hc : 0 < (ls.filter (fun like => like.user == u)).length
  · simp only [likePost, if_pos hc]
    exact h
  · simp only [likePost, if_neg hc, List.map_cons]
    refine List.nodup_cons.mpr ⟨?_, h⟩
    intro hmem
    rcases List.mem_map.mp hmem with ⟨like, hlike, hu⟩
    have hmemf : like ∈ ls.filter (fun like => like.user == u) :=
      List.mem_filter.mpr ⟨hlike, by simp [hu]⟩
    have hlen : (ls.filter (fun like => like.user == u)).length = 0 := by omega
    rw [List.length_eq_zero.mp hlen] at hmemf
    exact List.not_mem_nil like hmemf

theorem unlikePost_preserves_nodup (ls : List Like) (u : String)
    (h : (ls.map Like.user).Nodup) :
    ((unlikePost ls u).2.map Like.user).Nodup := by
  unfold unlikePost
  split
  · exact h
  · exact List.Nodup.sublist
      ((jsSpliceRemoveOne_sublist ls _).map Like.user) h

theorem mem_findOneAndRemove_of_not (p : α → Bool) (x : α) (l : List α)
    (hx : x ∈ l) (hpx : p x = false) : x ∈ findOneAndRemove p l := by
  induction l with
  | nil => cases hx
  | cons a as ih =>
    rcases List.mem_cons.mp hx with rfl | h
    · rw [findOneAndRemove, hpx]
      exact List.mem_cons_self x _
    · by_cases hpa : p a
      · rw [findOneAndRemove, if_pos hpa]
        exact h
      · rw [findOneAndRemove, if_neg hpa]
        exact List.mem_cons_of_mem a (ih h)

theorem findOneAndRemove_sublist (p : α → Bool) (l : List α) :
    (findOneAndRemove p l).Sublist l := by
  induction l with
  | nil => exact List.Sublist.refl []
  | cons a as ih =>
    by_cases hpa : p a
    · rw [findOneAndRemove, if_pos hpa]
      exact List.sublist_cons_self a as
    · rw [findOneAndRemove, if_neg hpa]
      exact ih.cons₂ a

theorem findOneAndRemove_no_match (p : α → Bool) (l : List α)
    (h : l.countP p ≤ 1) : ∀ x ∈ findOneAndRemove p l, p x = false := by
  induction l with
  | nil =>
    intro x hx
    rw [findOneAndRemove] at hx
    cases hx
  | cons a as ih =>
    intro x hx
    by_cases hpa : p a
    · rw [findOneAndRemove, if_pos hpa] at hx
      have hcnt := List.countP_cons_of_pos p as hpa
      have h0 : as.countP p = 0 := by omega
      have := List.countP_eq_zero.mp h0 x hx
      revert this
      cases p x <;> simp
    · rw [findOneAndRemove, if_neg hpa] at hx
      rcases List.mem_cons.mp hx with rfl | h'
      · revert hpa
        cases p x <;> simp
      · have hcnt := List.countP_cons_of_neg p as hpa
        exact ih (by omega) x h'

theorem keepIf_eq_some_iff (x : Option String) (v : String) :
    keepIf x = some v ↔ x = some v ∧ v ≠ "" := by
  cases x with
  | none => simp [keepIf, truthy]
  | some s =>
    by_cases hs : s = ""
    · subst hs
      simp only [keepIf, truthy]
      simp
      exact fun h => h.symm
    · rw [keepIf, truthy]
      rw [if_pos (by simp [hs])]
      constructor
      · intro h
        refine ⟨h, ?_⟩
        injection h with hv
        subst hv
        exact hs
      · intro h
        exact h.1

/-! ## Claim theorems -/

/-- C1: the spec requires the removal of an experience or education entry by
an identifier not present in the sub-list to be a no-op that leaves the
persisted sub-list unchanged.  The code instead feeds `indexOf`'s -1
not-found sentinel into `splice(-1, 1)`, which removes the LAST entry of a
non-empty sub-list: on a profile whose experience list holds the single entry
`e1`, deleting the absent identifier `e2` erases `e1`, and likewise for
education. -/
theorem C1_splice_truncates_last :
    deleteExperience [⟨"e1", "Developer", "Acme"⟩] "e2" = [] ∧
    "e2" ∉ ([⟨"e1", "Developer", "Acme"⟩] : List ExperienceEntry).map (·.id) ∧
    deleteEducation [⟨"d1", "School", "BSc"⟩] "d2" = [] ∧
    "d2" ∉ ([⟨"d1", "School", "BSc"⟩] : List EducationEntry).map (·.id) := by
  refine ⟨rfl, by decide, rfl, by decide⟩

/-- C2: the spec requires unlike to remove exactly the like entry of the
requesting identity, leaving all other entries unchanged.  The code's
`removeIndex` is an array (the per-like string-search positions), and
`splice` coerces a two-element array to NaN and hence to start 0: on a post
whose like list is `[u2, u1]` (u2 liked most recently), an unlike by `u1`
removes u2's like and leaves u1's own like in place. -/
theorem C2_unlike_removes_wrong_entry :
    unlikePost [⟨"u2"⟩, ⟨"u1"⟩] "u1" = (.removed, [⟨"u1"⟩]) ∧
    Like.mk "u1" ∈ (unlikePost [⟨"u2"⟩, ⟨"u1"⟩] "u1").2 ∧
    Like.mk "u2" ∉ (unlikePost [⟨"u2"⟩, ⟨"u1"⟩] "u1").2 := by
  refine ⟨rfl, by decide, by decide⟩

/-- C3: a like by an identity already present in the like list fails with
`Post already liked` (400) and leaves the persisted list unchanged; and every
like list reachable through the like/unlike handlers from a freshly created
post carries at most one like per identity (the mapped user list has no
duplicate). -/
theorem C3_at_most_one_like_per_user :
    (∀ (likes : List Like) (u : String),
      (∃ like ∈ likes, like.user = u) →
      likePost likes u = (.alreadyLiked, likes)) ∧
    (∀ ls, ReachableLikes ls → (ls.map Like.user).Nodup) := by
  constructor
  · intro likes u h
    rcases h with ⟨like, hmem, hu⟩
    have hpos : 0 < (likes.filter (fun like => like.user == u)).length := by
      have : like ∈ likes.filter (fun like => like.user == u) :=
        List.mem_filter.mpr ⟨hmem, by simp [hu]⟩
      exact List.length_pos.mpr (List.ne_nil_of_mem this)
    simp only [likePost, if_pos hpos]
  · intro ls h
    induction h with
    | init => simp
    | like u _ ih => exact likePost_preserves_nodup _ u ih
    | unlike u _ ih => exact unlikePost_preserves_nodup _ u ih

theorem C3_witness :
    likePost [Like.mk "u1"] "u1" = (.alreadyLiked, [Like.mk "u1"]) ∧
    (([] : List Like).map Like.user).Nodup :=
  ⟨C3_at_most_one_like_per_user.1 [Like.mk "u1"] "u1"
      ⟨Like.mk "u1", by decide, rfl⟩,
   C3_at_most_one_like_per_user.2 [] ReachableLikes.init⟩

/-- C4: with no token in the `x-auth-token` header (absent, or present but
empty and hence falsy) the middleware responds 401
`No token, authorisation denied` with zero invocations of `jwt.verify`; with
a present token that fails verification it responds 401
`Token is not valid`; in both cases the store passes through unchanged. -/
theorem C4_auth_guard_gate (verify : String → Option String) (store : Store) :
    authGuard verify none store =
      ((.unauthorized "No token, authorisation denied"), 0, store) ∧
    authGuard verify (some "") store =
      ((.unauthorized "No token, authorisation denied"), 0, store) ∧
    (∀ t, t ≠ "" → verify t = none →
      authGuard verify (some t) store =
        ((.unauthorized "Token is not valid"), 1, store)) := by
  refine ⟨rfl, rfl, fun t ht hv => ?_⟩
  simp [authGuard, ht, hv]

theorem C4_witness :
    authGuard (fun _ => none) none
        { users := [], profiles := [], posts := [] } =
      ((.unauthorized "No token, authorisation denied"), 0,
        { users := [], profiles := [], posts := [] }) ∧
    authGuard (fun _ => none) (some "tok")
        { users := [], profiles := [], posts := [] } =
      ((.unauthorized "Token is not valid"), 1,
        { users := [], profiles := [], posts := [] }) :=
  ⟨(C4_auth_guard_gate (fun _ => none)
      { users := [], profiles := [], posts := [] }).1,
   (C4_auth_guard_gate (fun _ => none)
      { users := [], profiles := [], posts := [] }).2.2 "tok" (by decide) rfl⟩

/-- C5: a token issued for an identity verifies back to that identity with
the same secret at any clock strictly before the expiration instant; at or
after the expiration instant verification fails; and the issued expiration
lies `expiresIn = 360000` seconds = 100 hours after issuance. -/
theorem C5_token_roundtrip (u secret : String) (t now : Nat) :
    (now < t + expiresInSeconds →
      verifyToken (issueToken u secret t) secret now = some u) ∧
    (t + expiresInSeconds ≤ now →
      verifyToken (issueToken u secret t) secret now = none) ∧
    (issueToken u secret t).exp = t + expiresInSeconds ∧
    expiresInSeconds = 100 * 60 * 60 := by
  refine ⟨fun h => ?_, fun h => ?_, rfl, rfl⟩
  · simp [verifyToken, issueToken, h]
  · have hn : ¬ now < t + expiresInSeconds := by omega
    simp [verifyToken, issueToken, hn]

theorem C5_witness :
    verifyToken (issueToken "u1" "s" 0) "s" 100 = some "u1" ∧
    verifyToken (issueToken "u1" "s" 0) "s" 360000 = none ∧
    (issueToken "u1" "s" 0).exp = 0 + expiresInSeconds ∧
    expiresInSeconds = 100 * 60 * 60 :=
  ⟨(C5_token_roundtrip "u1" "s" 0 100).1 (by decide),
   (C5_token_roundtrip "u1" "s" 0 360000).2.1 (by decide),
   (C5_token_roundtrip "u1" "s" 0 0).2.2.1,
   (C5_token_roundtrip "u1" "s" 0 0).2.2.2⟩

/-- C6: the login failure response for an unknown email and the failure
response for a known email with a mismatching password are the very same
response — status 400 with the single `Invalid credentials` message — so the
two causes are indistinguishable to the caller. -/
theorem C6_login_failures_indistinguishable (users : List User)
    (bcryptCompare : String → String → Bool)
    (e1 p1 e2 p2 secret : String) (now : Nat) (u : User)
    (h1 : users.find? (fun x => x.email == e1) = none)
    (h2 : users.find? (fun x => x.email == e2) = some u)
    (h3 : bcryptCompare p2 u.password = false) :
    login users bcryptCompare e1 p1 secret now =
      login users bcryptCompare e2 p2 secret now ∧
    login users bcryptCompare e1 p1 secret now =
      .err 400 ["Invalid credentials"] := by
  constructor
  · simp [login, h1, h2, h3]
  · simp [login, h1]

theorem C6_witness :
    login usersC6 (fun _ _ => false) "no@x.y" "pw" "s" 0 =
      login usersC6 (fun _ _ => false) "a@b.c" "pw" "s" 0 ∧
    login usersC6 (fun _ _ => false) "no@x.y" "pw" "s" 0 =
      .err 400 ["Invalid credentials"] :=
  C6_login_failures_indistinguishable usersC6 (fun _ _ => false)
    "no@x.y" "pw" "a@b.c" "pw" "s" 0 ⟨"id1", "Ann", "a@b.c", "hash", "av"⟩
    (by decide) (by decide) rfl

/-- C7: comment deletion responds 404 `Comment does not exist` when no
comment carries the identifier, responds 401 `User not authorized` with the
comment list untouched when the authenticated identity is not the comment's
author, and otherwise removes exactly the comments carrying that identifier:
the found comment is gone, every comment with a different identifier
survives, and nothing new appears. -/
theorem C7_delete_comment_cases (comments : List Comment) (cid uid : String) :
    (comments.find? (fun c => c.id == cid) = none →
      deleteComment comments cid uid = (.notFound, comments)) ∧
    (∀ c, comments.find? (fun c => c.id == cid) = some c → c.user ≠ uid →
      deleteComment comments cid uid = (.forbidden, comments)) ∧
    (∀ c, comments.find? (fun c => c.id == cid) = some c → c.user = uid →
      (deleteComment comments cid uid).1 = .removedOk ∧
      c ∉ (deleteComment comments cid uid).2 ∧
      (∀ d ∈ comments, d.id ≠ cid → d ∈ (deleteComment comments cid uid).2) ∧
      (∀ d ∈ (deleteComment comments cid uid).2, d ∈ comments)) := by
  refine ⟨fun h => ?_, fun c hc hne => ?_, fun c hc heq => ?_⟩
  · simp [deleteComment, h]
  · have hb : (c.user != uid) = true := by simp [hne]
    simp [deleteComment, hc, hb]
  · have hcid : c.id = cid := by
      have := List.find?_some hc
      simpa using this
    have hb : (c.user != uid) = false := by simp [heq]
    have hdc : deleteComment comments cid uid =
        (.removedOk, comments.filter (fun d => d.id != cid)) := by
      simp [deleteComment, hc, hb]
    refine ⟨by rw [hdc], ?_, ?_, ?_⟩
    · rw [hdc]
      intro hmem
      have := (List.mem_filter.mp hmem).2
      simp [hcid] at this
    · intro d hd hdne
      rw [hdc]
      exact List.mem_filter.mpr ⟨hd, by simp [hdne]⟩
    · intro d hd
      rw [hdc] at hd
      exact (List.mem_filter.mp hd).1

theorem C7_witness :
    deleteComment commentsC7 "zz" "u1" = (.notFound, commentsC7) ∧
    deleteComment commentsC7 "c1" "u2" = (.forbidden, commentsC7) ∧
    (deleteComment commentsC7 "c1" "u1").1 = .removedOk ∧
    (⟨"c1", "u1", "hi", "Ann", "av"⟩ : Comment) ∉
      (deleteComment commentsC7 "c1" "u1").2 :=
  ⟨(C7_delete_comment_cases commentsC7 "zz" "u1").1 (by decide),
   (C7_delete_comment_cases commentsC7 "c1" "u2").2.1
     ⟨"c1", "u1", "hi", "Ann", "av"⟩ (by decide) (by decide),
   ((C7_delete_comment_cases commentsC7 "c1" "u1").2.2
     ⟨"c1", "u1", "hi", "Ann", "av"⟩ (by decide) rfl).1,
   ((C7_delete_comment_cases commentsC7 "c1" "u1").2.2
     ⟨"c1", "u1", "hi", "Ann", "av"⟩ (by decide) rfl).2.1⟩

/-- C8 counterexample: a body field that is present but the empty string is
falsy, so `if (company) ...` skips it — the written field set omits a field
that IS present in the input, refuting "contains exactly the fields present
in the input" as stated. -/
theorem C8_counterexample :
    bodyC8cex.company = some "" ∧
    (buildProfileFields "u1" bodyC8cex).company = none := by
  exact ⟨rfl, by decide⟩

/-- C8 amended: the canonical field set contains exactly the truthy fields of
the input — a field that is absent, or present but the empty string, is left
out — each kept with its input value, and a truthy skills string is split on
commas with each element trimmed into a list. -/
theorem C8_truthy_field_set (userId : String) (b : ProfileBody) :
    (buildProfileFields userId b).user = userId ∧
    (∀ v, (buildProfileFields userId b).company = some v ↔
      b.company = some v ∧ v ≠ "") ∧
    (∀ v, (buildProfileFields userId b).website = some v ↔
      b.website = some v ∧ v ≠ "") ∧
    (∀ v, (buildProfileFields userId b).location = some v ↔
      b.location = some v ∧ v ≠ "") ∧
    (∀ v, (buildProfileFields userId b).bio = some v ↔
      b.bio = some v ∧ v ≠ "") ∧
    (∀ v, (buildProfileFields userId b).status = some v ↔
      b.status = some v ∧ v ≠ "") ∧
    (∀ v, (buildProfileFields userId b).githubusername = some v ↔
      b.githubusername = some v ∧ v ≠ "") ∧
    (∀ v, (buildProfileFields userId b).social.youtube = some v ↔
      b.youtube = some v ∧ v ≠ "") ∧
    (∀ v, (buildProfileFields userId b).social.twitter = some v ↔
      b.twitter = some v ∧ v ≠ "") ∧
    (∀ v, (buildProfileFields userId b).social.facebook = some v ↔
      b.facebook = some v ∧ v ≠ "") ∧
    (∀ v, (buildProfileFields userId b).social.linkedin = some v ↔
      b.linkedin = some v ∧ v ≠ "") ∧
    (∀ v, (buildProfileFields userId b).social.instagram = some v ↔
      b.instagram = some v ∧ v ≠ "") ∧
    (∀ l, (buildProfileFields userId b).skills = some l ↔
      ∃ s, b.skills = some s ∧ s ≠ "" ∧
        l = (s.splitOn ",").map (fun skill => skill.trim)) := by
  refine ⟨rfl, fun v => keepIf_eq_some_iff _ _, fun v => keepIf_eq_some_iff _ _,
    fun v => keepIf_eq_some_iff _ _, fun v => keepIf_eq_some_iff _ _,
    fun v => keepIf_eq_some_iff _ _, fun v => keepIf_eq_some_iff _ _,
    fun v => keepIf_eq_some_iff _ _, fun v => keepIf_eq_some_iff _ _,
    fun v => keepIf_eq_some_iff _ _, fun v => keepIf_eq_some_iff _ _,
    fun v => keepIf_eq_some_iff _ _, fun l => ?_⟩
  cases hbs : b.skills with
  | none => simp [buildProfileFields, hbs]
  | some s =>
    by_cases hs : s = ""
    · subst hs
      simp [buildProfileFields, hbs]
    · simp [buildProfileFields, hbs, hs, eq_comm]

theorem C8_witness :
    (buildProfileFields "u1" bodyC8w).company = some "Acme" ↔
      bodyC8w.company = some "Acme" ∧ "Acme" ≠ "" :=
  (C8_truthy_field_set "u1" bodyC8w).2.1 "Acme"

/-- C9: account deletion leaves the posts collection untouched (including the
deleted user's posts), removes no profile or user of a different identity,
invents no documents, and — the profile collection being one-to-one per user
and user ids unique — leaves no profile or user of the authenticated identity
behind. -/
theorem C9_account_deletion_frame (store : Store) (uid : String) :
    (deleteAccount store uid).1.posts = store.posts ∧
    (∀ p ∈ (deleteAccount store uid).1.profiles, p ∈ store.profiles) ∧
    (∀ p ∈ store.profiles, p.user ≠ uid →
      p ∈ (deleteAccount store uid).1.profiles) ∧
    (∀ u ∈ (deleteAccount store uid).1.users, u ∈ store.users) ∧
    (∀ u ∈ store.users, u.id ≠ uid → u ∈ (deleteAccount store uid).1.users) ∧
    (store.profiles.countP (fun p => p.user == uid) ≤ 1 →
      ∀ p ∈ (deleteAccount store uid).1.profiles, p.user ≠ uid) ∧
    (store.users.countP (fun u => u.id == uid) ≤ 1 →
      ∀ u ∈ (deleteAccount store uid).1.users, u.id ≠ uid) := by
  refine ⟨rfl, ?_, ?_, ?_, ?_, ?_, ?_⟩
  · intro p hp
    exact (findOneAndRemove_sublist _ _).subset hp
  · intro p hp hne
    exact mem_findOneAndRemove_of_not _ _ _ hp (by simp [hne])
  · intro u hu
    exact (findOneAndRemove_sublist _ _).subset hu
  · intro u hu hne
    exact mem_findOneAndRemove_of_not _ _ _ hu (by simp [hne])
  · intro hcnt p hp
    have := findOneAndRemove_no_match _ _ hcnt p hp
    simpa using this
  · intro hcnt u hu
    have := findOneAndRemove_no_match _ _ hcnt u hu
    simpa using this

theorem C9_witness :
    (deleteAccount storeC9 "u1").1.posts = storeC9.posts ∧
    (⟨"u2", [], []⟩ : StoredProfile) ∈ (deleteAccount storeC9 "u1").1.profiles ∧
    (∀ p ∈ (deleteAccount storeC9 "u1").1.profiles, p.user ≠ "u1") ∧
    (∀ u ∈ (deleteAccount storeC9 "u1").1.users, u.id ≠ "u1") :=
  ⟨(C9_account_deletion_frame storeC9 "u1").1,
   (C9_account_deletion_frame storeC9 "u1").2.2.1 ⟨"u2", [], []⟩
     (by decide) (by decide),
   (C9_account_deletion_frame storeC9 "u1").2.2.2.2.2.1 (by decide),
   (C9_account_deletion_frame storeC9 "u1").2.2.2.2.2.2 (by decide)⟩

/-- C10: when the post identifier matches no stored post, `findById` yields
null, the like/unlike handlers dereference it, and the thrown error reaches
the catch block: the response is the generic 500 `Server Error`, never a
404. -/
theorem C10_absent_post_server_error (posts : List Post) (pid uid : String)
    (h : posts.find? (fun p => p.id == pid) = none) :
    likeRoute posts pid uid = .serverError ∧
    unlikeRoute posts pid uid = .serverError ∧
    postRouteStatus (likeRoute posts pid uid) = 500 ∧
    postRouteStatus (likeRoute posts pid uid) ≠ 404 ∧
    postRouteStatus (unlikeRoute posts pid uid) = 500 ∧
    postRouteStatus (unlikeRoute posts pid uid) ≠ 404 := by
  have hl : likeRoute posts pid uid = .serverError := by
    simp [likeRoute, h]
  have hu : unlikeRoute posts pid uid = .serverError := by
    simp [unlikeRoute, h]
  exact ⟨hl, hu, by rw [hl]; rfl, by rw [hl]; decide, by rw [hu]; rfl,
    by rw [hu]; decide⟩

theorem C10_witness :
    likeRoute [] "p1" "u1" = .serverError ∧
    unlikeRoute [] "p1" "u1" = .serverError ∧
    postRouteStatus (likeRoute [] "p1" "u1") = 500 ∧
    postRouteStatus (likeRoute [] "p1" "u1") ≠ 404 ∧
    postRouteStatus (unlikeRoute [] "p1" "u1") = 500 ∧
    postRouteStatus (unlikeRoute [] "p1" "u1") ≠ 404 :=
  C10_absent_post_server_error [] "p1" "u1" rfl
